import Mathlib

/-!
# Verification of `wmi-rs` (query cursor and timestamp parser)

Shallow embedding of `src/query.rs` (the `QueryResultEnumerator` iterator,
its `Drop` impl and `WMIConnection::query`) and `src/datetime.rs`
(`WMIDateTime::from_str` and chrono's rendering of a `DateTime<Utc>`).

Native COM state (the `IEnumWbemClassObject` enumerator, per-record
`IWbemClassObject` handles and the `VARIANT` value buffer) is modelled
explicitly; each call to `next` additionally produces a trace of the native
operations it performed (fetch, property get, buffer reads, `VariantClear`,
releases) so that temporal and resource-balance properties can be stated.
-/

/-- The native kind held by the `VARIANT` buffer after `Get("Caption", ..)`
returns.  Only `vText` means the union's `bstrVal` field is a valid string
handle.  `vEmpty` models a zero-initialised buffer left untouched (property
absent; the `Get` HRESULT is ignored by the source), `vNull` a `VT_NULL`
value, `vOther` any other native kind. -/
inductive NativeValue
  | vText (units : List Nat)
  | vNull
  | vEmpty
  | vOther
deriving DecidableEq, Repr

/-- Outcome of one native `IEnumWbemClassObject::Next` call: a failing
HRESULT, one record object (characterised by what its `Caption` property's
`VARIANT` will hold), or `return_value = 0` (no more records). -/
inductive Pull
  | perr
  | pobj (v : NativeValue)
  | pdone
deriving DecidableEq, Repr

/-- The native enumerator: the scripted sequence of outcomes its `Next`
method will produce.  Once the script is exhausted it keeps reporting
`pdone` (zero records returned). -/
structure NativeEnum where
  pulls : List Pull
deriving DecidableEq, Repr

/-- One native `Next` call: consumes the head of the script. -/
def nativeNext (en : NativeEnum) : Pull × NativeEnum :=
  match en.pulls with
  | [] => (Pull.pdone, ⟨[]⟩)
  | p :: rest => (p, ⟨rest⟩)

/-- `QueryResultEnumerator` (src/query.rs): holds
`p_enumerator : Option<Unique<IEnumWbemClassObject>>`; `none` models the
null enumerator pointer (`Unique::new(NULL) = None`). -/
structure QueryResultEnumerator where
  p_enumerator : Option NativeEnum
deriving DecidableEq, Repr

/-- Native operations performed during a call, recorded in order. -/
inductive NEvent
  | fetch      -- `IEnumWbemClassObject::Next`
  | getProp    -- `IWbemClassObject::Get`
  | readBuf    -- a read through the buffer's string handle
  | clearBuf   -- `VariantClear`
  | releaseObj -- `IWbemClassObject::Release` (the record)
  | releaseEnum -- `IEnumWbemClassObject::Release` (the enumerator)
deriving DecidableEq, Repr, BEq

/-- What one call to `Iterator::next` does.  `retOk`/`retErr`/`retNone`
are the `Some(Ok _)`, `Some(Err _)` and `None` returns; `panicked` is the
`prop_val.to_string().unwrap()` panic on invalid UTF-16; `undef` is the
undefined behaviour of dereferencing the union's `bstrVal` field when the
buffer does not hold a text value. -/
inductive NextOutcome
  | retOk (s : List Nat)
  | retErr
  | retNone
  | panicked
  | undef
deriving DecidableEq, Repr

/-- UTF-16 decoding as performed by `WideCStr::to_string` (src/query.rs
line 121): surrogate pairs combine, unpaired surrogates fail. -/
def decodeUtf16 : List Nat → Option (List Nat)
  | [] => some []
  | u :: rest =>
    if u < 0xD800 ∨ 0xE000 ≤ u then
      (decodeUtf16 rest).map (fun cps => u :: cps)
    else if u ≤ 0xDBFF then
      match rest with
      | [] => none
      | lo :: rest2 =>
        if 0xDC00 ≤ lo ∧ lo ≤ 0xDFFF then
          (decodeUtf16 rest2).map
            (fun cps => (0x10000 + (u - 0xD800) * 0x400 + (lo - 0xDC00)) :: cps)
        else none
    else none

/-- `QueryResultEnumerator::next` (src/query.rs lines 73-130), with its
trace of native operations.  The source, in order: early `None` when no
enumerator is held; native `Next` (fetch); `Some(Err)` on failing HRESULT;
`None` on `return_value == 0`; otherwise `Get("Caption")` fills the
zeroed `VARIANT`, the union's `bstrVal` is read and dereferenced by
`WideCStr::from_ptr_str` (a read of the buffer — undefined behaviour
unless the value is a text), `VariantClear`, then
`prop_val.to_string().unwrap()` (a second read of the buffer, panicking on
invalid UTF-16), then the record's `Release`, then `Some(Ok _)`. -/
def next (c : QueryResultEnumerator) : NextOutcome × QueryResultEnumerator × List NEvent :=
  match c.p_enumerator with
  | none => (NextOutcome.retNone, c, [])
  | some en =>
    let st := nativeNext en
    let c2 : QueryResultEnumerator := ⟨some st.2⟩
    match st.1 with
    | Pull.perr => (NextOutcome.retErr, c2, [NEvent.fetch])
    | Pull.pdone => (NextOutcome.retNone, c2, [NEvent.fetch])
    | Pull.pobj v =>
      match v with
      | NativeValue.vText units =>
        match decodeUtf16 units with
        | some cps =>
          (NextOutcome.retOk cps, c2,
            [NEvent.fetch, NEvent.getProp, NEvent.readBuf, NEvent.clearBuf,
             NEvent.readBuf, NEvent.releaseObj])
        | none =>
          (NextOutcome.panicked, c2,
            [NEvent.fetch, NEvent.getProp, NEvent.readBuf, NEvent.clearBuf])
      | _ =>
        (NextOutcome.undef, c2, [NEvent.fetch, NEvent.getProp, NEvent.readBuf])

/-- `n` successive calls to `next`: the outcomes, final cursor state and
concatenated trace. -/
def nextN : QueryResultEnumerator → Nat → List NextOutcome × QueryResultEnumerator × List NEvent
  | c, 0 => ([], c, [])
  | c, n + 1 =>
    let r := next c
    let rs := nextN r.2.1 n
    (r.1 :: rs.1, rs.2.1, r.2.2 ++ rs.2.2)

/-- `Drop for QueryResultEnumerator` (src/query.rs lines 60-68): release
the native enumerator reference iff one is held. -/
def dropEnum (c : QueryResultEnumerator) : List NEvent :=
  match c.p_enumerator with
  | some _ => [NEvent.releaseEnum]
  | none => []

/-- `WMIConnection::query` (src/query.rs lines 28-51): on a failing
`ExecQuery` HRESULT, `check_hres` propagates the error and no cursor is
built; on success the returned pointer (possibly null) is wrapped with
`Unique::new`, null becoming `None`. -/
def query (execResult : Except Unit (Option NativeEnum)) :
    Except Unit QueryResultEnumerator :=
  match execResult with
  | Except.error e => Except.error e
  | Except.ok p => Except.ok ⟨p⟩

/-- A trace respects "never read the buffer after clearing it". -/
def noReadAfterClear : List NEvent → Bool
  | [] => true
  | NEvent.clearBuf :: rest =>
    rest.all (fun e => match e with | NEvent.readBuf => false | _ => true)
  | _ :: rest => noReadAfterClear rest

/-- Cursor over records whose `Caption` values are the given texts, with no
native failures: the test-double source for the exact-N property. -/
def textCursor (vs : List (List Nat)) : QueryResultEnumerator :=
  ⟨some ⟨vs.map (fun v => Pull.pobj (NativeValue.vText v))⟩⟩

/-! ## Timestamp parser (src/datetime.rs) -/

/-- A `chrono::DateTime<Utc>` value: calendar fields plus nanoseconds.
The type carries no offset — it is always UTC. -/
structure UtcDateTime where
  year : Nat
  month : Nat
  day : Nat
  hour : Nat
  minute : Nat
  second : Nat
  nano : Nat
deriving DecidableEq, Repr

/-- `pub struct WMIDateTime(DateTime<Utc>)` (src/datetime.rs line 8). -/
structure WMIDateTime where
  dt : UtcDateTime
deriving DecidableEq, Repr

/-- Outcome of `WMIDateTime::from_str`: `ok`, a `chrono` parse error, or a
panic (from `s.split_at(21)` on an input shorter than 21 bytes). -/
inductive ParseOutcome
  | ok (d : WMIDateTime)
  | err
  | panicked
deriving DecidableEq, Repr

def allDigits (cs : List Char) : Bool := cs.all Char.isDigit

def digitsVal (cs : List Char) : Nat :=
  cs.foldl (fun a c => a * 10 + (c.toNat - 48)) 0

def isLeap (y : Nat) : Bool :=
  (y % 4 == 0 && y % 100 != 0) || y % 400 == 0

def daysInMonth (y m : Nat) : Nat :=
  if m = 2 then (if isLeap y then 29 else 28)
  else if m = 4 ∨ m = 6 ∨ m = 9 ∨ m = 11 then 30
  else 31

/-- `Utc.datetime_from_str(datetime_part, "%Y%m%d%H%M%S.%f")`
(src/datetime.rs line 19) under chrono's semantics: `%Y` `%m` `%d` `%H`
`%M` `%S` take 4+2+2+2+2+2 digits, then the literal `.`, then `%f` takes
the remaining run of digits and interprets the number as NANOSECONDS
(chrono's `%f` does not scale by the digit count); field ranges are
validated.  The whole slice must be consumed. -/
def datetime_from_str (cs : List Char) : Option UtcDateTime :=
  match cs with
  | y1 :: y2 :: y3 :: y4 :: m1 :: m2 :: d1 :: d2 ::
    h1 :: h2 :: i1 :: i2 :: s1 :: s2 :: dot :: frac =>
    if allDigits [y1, y2, y3, y4, m1, m2, d1, d2, h1, h2, i1, i2, s1, s2] = true
        ∧ dot = '.' ∧ allDigits frac = true
        ∧ 1 ≤ frac.length ∧ frac.length ≤ 9 then
      let year := digitsVal [y1, y2, y3, y4]
      let month := digitsVal [m1, m2]
      let day := digitsVal [d1, d2]
      let hour := digitsVal [h1, h2]
      let minute := digitsVal [i1, i2]
      let second := digitsVal [s1, s2]
      let nano := digitsVal frac
      if 1 ≤ month ∧ month ≤ 12 ∧ 1 ≤ day ∧ day ≤ daysInMonth year month
          ∧ hour < 24 ∧ minute < 60 ∧ second < 60 then
        some ⟨year, month, day, hour, minute, second, nano⟩
      else none
    else none
  | _ => none

/-- `WMIDateTime::from_str` (src/datetime.rs lines 13-22):
`s.split_at(21)` — panicking when the input is shorter than 21 — then the
first 21 characters are parsed as above; `tz_part` (everything from index
21 on) is bound but never used, and the naive result is stored directly as
UTC. -/
def from_str (s : List Char) : ParseOutcome :=
  if s.length < 21 then ParseOutcome.panicked
  else
    match datetime_from_str (s.take 21) with
    | some d => ParseOutcome.ok ⟨d⟩
    | none => ParseOutcome.err

def padNum (w n : Nat) : List Char :=
  let ds := Nat.toDigits 10 n
  List.replicate (w - ds.length) '0' ++ ds

/-- chrono renders fractional seconds in groups of 3 digits, dropping
trailing zero groups. -/
def fracPart (nano : Nat) : List Char :=
  if nano = 0 then []
  else if nano % 1000000 = 0 then '.' :: padNum 3 (nano / 1000000)
  else if nano % 1000 = 0 then '.' :: padNum 6 (nano / 1000)
  else '.' :: padNum 9 nano

/-- `DateTime<Utc>::to_rfc3339` (used by the source's own tests,
src/datetime.rs lines 62 and 69): since the stored value is `Utc`, the
rendered offset suffix is the fixed `+00:00`. -/
def to_rfc3339 (d : WMIDateTime) : List Char :=
  padNum 4 d.dt.year ++ '-' :: padNum 2 d.dt.month ++ '-' :: padNum 2 d.dt.day
    ++ 'T' :: padNum 2 d.dt.hour ++ ':' :: padNum 2 d.dt.minute
    ++ ':' :: padNum 2 d.dt.second ++ fracPart d.dt.nano
    ++ ('+' :: '0' :: '0' :: ':' :: '0' :: '0' :: [])

/-! ## Helper lemmas -/

theorem next_count_releaseEnum (c : QueryResultEnumerator) :
    ((next c).2.2).count NEvent.releaseEnum = 0 := by
  rcases c with ⟨_ | ⟨pulls⟩⟩
  · rfl
  · rcases pulls with _ | ⟨p, rest⟩
    · rfl
    · rcases p with _ | v | _
      · rfl
      · rcases v with units | _ | _ | _
        · rcases h : decodeUtf16 units with _ | cps <;>
            simp [next, nativeNext, h, List.count_cons] <;> decide
        · rfl
        · rfl
        · rfl
      · rfl

theorem next_preserves_held (c : QueryResultEnumerator) :
    ((next c).2.1).p_enumerator.isSome = c.p_enumerator.isSome := by
  rcases c with ⟨_ | ⟨pulls⟩⟩
  · rfl
  · rcases pulls with _ | ⟨p, rest⟩
    · rfl
    · rcases p with _ | v | _
      · rfl
      · rcases v with units | _ | _ | _
        · rcases h : decodeUtf16 units with _ | cps <;>
            simp [next, nativeNext, h]
        · rfl
        · rfl
        · rfl
      · rfl

theorem next_fetch_count (en : NativeEnum) :
    ((next ⟨some en⟩).2.2).count NEvent.fetch = 1 := by
  rcases en with ⟨pulls⟩
  rcases pulls with _ | ⟨p, rest⟩
  · rfl
  · rcases p with _ | v | _
    · rfl
    · rcases v with units | _ | _ | _
      · rcases h : decodeUtf16 units with _ | cps <;>
          simp [next, nativeNext, h, List.count_cons] <;> decide
      · rfl
      · rfl
      · rfl
    · rfl

theorem nextN_textCursor (vs : List (List Nat))
    (h : ∀ v ∈ vs, (decodeUtf16 v).isSome = true) :
    (nextN (textCursor vs) vs.length).1
        = vs.map (fun v => NextOutcome.retOk ((decodeUtf16 v).getD []))
      ∧ (nextN (textCursor vs) vs.length).2.1 = ⟨some ⟨[]⟩⟩ := by
  induction vs with
  | nil => exact ⟨rfl, rfl⟩
  | cons v tl ih =>
    obtain ⟨cps, hcps⟩ := Option.isSome_iff_exists.mp (h v (by simp))
    have htl := ih (fun w hw => h w (by simp [hw]))
    refine ⟨?_, ?_⟩
    · simpa [textCursor, nextN, next, nativeNext, hcps] using htl.1
    · simpa [textCursor, nextN, next, nativeNext, hcps] using htl.2

/-! ## Claim theorems -/

/-- C1: the claim says the decoder checks the `VARIANT`'s type tag before
interpreting the buffer as text and returns `UnexpectedValueKind` when the
tag is not text.  The source (src/query.rs lines 112-116) performs no such
check: on a `VT_NULL` value, and on a property left absent (zeroed
`VT_EMPTY` buffer), `next` reads the union's `bstrVal` field and
dereferences it as a wide-string handle (outcome `undef`, trace ending in
`readBuf`); no `UnexpectedValueKind` error is ever produced. -/
theorem null_variant_dereferenced_as_text :
    next ⟨some ⟨[Pull.pobj NativeValue.vNull]⟩⟩
      = (NextOutcome.undef, ⟨some ⟨[]⟩⟩,
         [NEvent.fetch, NEvent.getProp, NEvent.readBuf])
    ∧ next ⟨some ⟨[Pull.pobj NativeValue.vEmpty]⟩⟩
      = (NextOutcome.undef, ⟨some ⟨[]⟩⟩,
         [NEvent.fetch, NEvent.getProp, NEvent.readBuf]) := by decide

/-- C2: the claim says the native text is copied into an owned string
BEFORE the buffer is cleared, and the buffer is never read after clearing.
In the source, `WideCStr::from_ptr_str` only borrows the buffer (first
`readBuf`), `VariantClear` then frees the `BSTR` (`clearBuf`), and only
afterwards does `prop_val.to_string()` copy the text — a second `readBuf`
occurring after the clear.  The successful-decode trace therefore violates
`noReadAfterClear`. -/
theorem buffer_read_after_clear :
    next ⟨some ⟨[Pull.pobj (NativeValue.vText [72, 105])]⟩⟩
      = (NextOutcome.retOk [72, 105], ⟨some ⟨[]⟩⟩,
         [NEvent.fetch, NEvent.getProp, NEvent.readBuf, NEvent.clearBuf,
          NEvent.readBuf, NEvent.releaseObj])
    ∧ noReadAfterClear
        [NEvent.fetch, NEvent.getProp, NEvent.readBuf, NEvent.clearBuf,
         NEvent.readBuf, NEvent.releaseObj] = false := by decide

/-- C3: the claim says every pull that obtains a record releases the
record's native reference exactly once before returning, on every path
including decode failure.  In the source, decode failure is
`prop_val.to_string().unwrap()` panicking on invalid UTF-16 (e.g. a lone
high surrogate 0xD800), which happens BEFORE `(*pcls_obj).Release()`
(src/query.rs lines 121 vs 126): the record reference is leaked — its
trace contains no `releaseObj`. -/
theorem decode_panic_leaks_record :
    next ⟨some ⟨[Pull.pobj (NativeValue.vText [0xD800])]⟩⟩
      = (NextOutcome.panicked, ⟨some ⟨[]⟩⟩,
         [NEvent.fetch, NEvent.getProp, NEvent.readBuf, NEvent.clearBuf])
    ∧ ([NEvent.fetch, NEvent.getProp, NEvent.readBuf,
        NEvent.clearBuf].count NEvent.releaseObj) = 0 := by decide

/-- C4: the claim says the trailing sign-plus-3-digits offset is parsed,
applied to the naive date-time, and retained so rendering preserves the
`+HH:MM`/`-HH:MM` suffix.  The source (src/datetime.rs lines 16-21) binds
`tz_part` but never uses it: inputs differing only in their offset parse
to the SAME `DateTime<Utc>`, and `to_rfc3339` renders the fixed `+00:00`
suffix — not the `+01:00` its own test expects. -/
theorem offset_ignored_and_normalized_to_utc :
    from_str "20190113200517.500000+060".toList
      = ParseOutcome.ok ⟨⟨2019, 1, 13, 20, 5, 17, 500000⟩⟩
    ∧ from_str "20190113200517.500000-180".toList
      = from_str "20190113200517.500000+060".toList
    ∧ to_rfc3339 ⟨⟨2019, 1, 13, 20, 5, 17, 500000⟩⟩
      = "2019-01-13T20:05:17.000500+00:00".toList := by decide

/-- C5: the claim says the 6-digit fraction is microseconds, so
`...517.500000...` should carry 0.5 s = 500000000 ns of sub-second time.
chrono's `%f` (the format used at src/datetime.rs line 19) parses the
digit run as a plain nanosecond count: the source stores 500000 ns
(0.0005 s) — matching its own test expectation `.000500` — not the
claimed 0.500000 s. -/
theorem fraction_parsed_as_nanoseconds :
    from_str "20190113200517.500000+060".toList
      = ParseOutcome.ok ⟨⟨2019, 1, 13, 20, 5, 17, 500000⟩⟩
    ∧ from_str "20190113200517.500000+060".toList
      ≠ ParseOutcome.ok ⟨⟨2019, 1, 13, 20, 5, 17, 500000000⟩⟩ := by decide

/-- C6: the claim says parsing is total — malformed input (shorter than 25
characters, non-numeric offset) returns a parse error and never panics.
The source calls `s.split_at(21)`, which panics on any input shorter than
21 bytes (empty string, 20-character string), and it never inspects the
offset, so a non-numeric offset (`+abc`) is accepted as `Ok`. -/
theorem short_input_panics_and_bad_offset_accepted :
    from_str [] = ParseOutcome.panicked
    ∧ from_str "20190113200517.50000".toList = ParseOutcome.panicked
    ∧ from_str "20190113200517.500000+abc".toList
      = ParseOutcome.ok ⟨⟨2019, 1, 13, 20, 5, 17, 500000⟩⟩ := by decide

/-- C7: on a cursor backed by `N` records whose captions all decode,
exactly `N` calls to `next` return `Some(Ok _)` (the decoded texts, in
order), the `(N+1)`-th call returns `None`, and a failing native fetch is
surfaced as `Some(Err _)` — never collapsed into `None`. -/
theorem cursor_yields_exactly_N_records (vs : List (List Nat))
    (h : ∀ v ∈ vs, (decodeUtf16 v).isSome = true) :
    (nextN (textCursor vs) vs.length).1
        = vs.map (fun v => NextOutcome.retOk ((decodeUtf16 v).getD []))
      ∧ (next (nextN (textCursor vs) vs.length).2.1).1 = NextOutcome.retNone
      ∧ (∀ rest : List Pull,
          (next ⟨some ⟨Pull.perr :: rest⟩⟩).1 = NextOutcome.retErr) := by
  obtain ⟨h1, h2⟩ := nextN_textCursor vs h
  refine ⟨h1, ?_, fun rest => rfl⟩
  rw [h2]; rfl

/-- C7 witness: two records decoding to "H" and "i". -/
theorem cursor_yields_exactly_N_records_witness :
    (∀ v ∈ ([[72], [105]] : List (List Nat)), (decodeUtf16 v).isSome = true)
    ∧ ((nextN (textCursor [[72], [105]]) ([[72], [105]] : List (List Nat)).length).1
        = ([[72], [105]] : List (List Nat)).map
            (fun v => NextOutcome.retOk ((decodeUtf16 v).getD []))
      ∧ (next (nextN (textCursor [[72], [105]])
            ([[72], [105]] : List (List Nat)).length).2.1).1 = NextOutcome.retNone
      ∧ (∀ rest : List Pull,
          (next ⟨some ⟨Pull.perr :: rest⟩⟩).1 = NextOutcome.retErr)) :=
  ⟨by decide, cursor_yields_exactly_N_records [[72], [105]] (by decide)⟩

/-- C8: for any cursor and any number of `next` calls followed by the
`Drop` impl, the native enumerator reference is released exactly once if
one is held and not at all otherwise — in particular never twice.  `next`
never emits an enumerator release and never changes whether the reference
is held, and `Drop` runs once, releasing iff held. -/
theorem enumerator_released_exactly_once (c : QueryResultEnumerator) (n : Nat) :
    (((nextN c n).2.2) ++ dropEnum (nextN c n).2.1).count NEvent.releaseEnum
      = (if c.p_enumerator.isSome then 1 else 0) := by
  induction n generalizing c with
  | zero =>
    rcases c with ⟨_ | en⟩ <;> simp [nextN, dropEnum]
    decide
  | succ n ih =>
    have h1 := next_count_releaseEnum c
    have h2 := next_preserves_held c
    have h3 := ih (next c).2.1
    simp only [nextN, List.append_assoc, List.count_append] at h3 ⊢
    rw [h2] at h3
    rw [h1, h3, Nat.zero_add]

/-- C9 counterexample: after a pull reports a fetch error, the claim says
no subsequent pull performs a native fetch or yields a record.  On the
source, an error pull leaves `p_enumerator` untouched, so the very next
call performs another native `Next` (trace starts with `fetch`) and can
yield a further record (`Some(Ok _)`). -/
theorem error_pull_then_iteration_resumes :
    (next ⟨some ⟨[Pull.perr, Pull.pobj (NativeValue.vText [72])]⟩⟩).1
      = NextOutcome.retErr
    ∧ next ((next ⟨some ⟨[Pull.perr, Pull.pobj (NativeValue.vText [72])]⟩⟩).2.1)
      = (NextOutcome.retOk [72], ⟨some ⟨[]⟩⟩,
         [NEvent.fetch, NEvent.getProp, NEvent.readBuf, NEvent.clearBuf,
          NEvent.readBuf, NEvent.releaseObj]) := by decide

/-- C9 amended: a pull that reports a fetch error returns `Some(Err _)`
and leaves the cursor state unchanged apart from the consumed native
outcome — the enumerator reference is still held and any subsequent pull
performs another native fetch.  Halting after an error is the caller's
obligation; the cursor has no poisoned state. -/
theorem error_pull_does_not_poison_cursor (rest : List Pull) :
    next ⟨some ⟨Pull.perr :: rest⟩⟩
      = (NextOutcome.retErr, ⟨some ⟨rest⟩⟩, [NEvent.fetch])
    ∧ ((next ⟨some ⟨rest⟩⟩).2.2).count NEvent.fetch = 1 :=
  ⟨rfl, next_fetch_count ⟨rest⟩⟩

/-- C10: a successful `ExecQuery` returning a null enumerator pointer
still yields `Ok`: `Unique::new(NULL)` is `None`, so the cursor holds no
enumerator reference; every `next` on it returns `None` with no native
call at all, and `Drop` releases nothing. -/
theorem null_enumerator_gives_inert_cursor :
    query (Except.ok none) = Except.ok ⟨none⟩
    ∧ (∀ n : Nat, (nextN ⟨none⟩ n).1 = List.replicate n NextOutcome.retNone
        ∧ (nextN ⟨none⟩ n).2.2 = [])
    ∧ dropEnum ⟨none⟩ = [] := by
  refine ⟨rfl, ?_, rfl⟩
  intro n
  induction n with
  | zero => exact ⟨rfl, rfl⟩
  | succ n ih =>
    exact ⟨by simp [nextN, next, List.replicate_succ, ih.1],
           by simp [nextN, next, ih.2]⟩
